import Mathlib

/-!
Shallow embedding of the Weaviate RAG chatbot (`chatbot.py`) in Lean 4.

The repository code is a thin orchestration layer over external services:
a Weaviate vector database, a HuggingFace embedding model and an
OpenAI-compatible completion endpoint.  We embed the repository's own
control flow (the `WeaviateChatbot` methods) faithfully, and model the
external calls as explicit parameters: each call that can fail is passed
in as an `Except`/`Option` outcome, and the vector database's schema is
an explicit association list from class names to stored documents.
Python exceptions are modelled as `Option Err` results (`some e` means
the method raised `e` to its caller); `try/except` blocks become matches
on those outcomes.
-/

/-- An error message, standing for the string rendering of a Python exception. -/
abbrev Err := String

/-- A llama-index `Document` as constructed by `chatbot.py`: only the `text`
field is ever set (`Document(text=doc_text)`). -/
structure Document where
  text : String
deriving DecidableEq, Repr

/-- Configuration of the completion provider, as assembled in
`WeaviateChatbot.__init__` (`llm_kwargs = {"model": model_name, "temperature": 0.1}`,
plus an optional `api_base`). The temperature is modelled as a rational. -/
structure LLMConfig where
  model : String
  temperature : ℚ
  api_base : Option String
deriving DecidableEq, Repr

/-- Configuration of the query engine, as built in `_setup_index`
(`as_query_engine(similarity_top_k=3, response_mode="tree_summarize")`). -/
structure QueryEngineConfig where
  similarity_top_k : Nat
  response_mode : String
deriving DecidableEq, Repr

/-- The Weaviate schema: an association list from class names to the list of
documents stored under that class, in insertion order. -/
abbrev Schema := List (String × List Document)

/-- The documents stored under class `name` (empty if the class is absent). -/
def docsOf : Schema → String → List Document
  | [], _ => []
  | c :: cs, name => if c.1 = name then c.2 else docsOf cs name

/-- Insert one document into class `name`, creating the class if absent
(Weaviate auto-creates a class on first insert). -/
def insertClass : Schema → String → Document → Schema
  | [], name, d => [(name, [d])]
  | c :: cs, name, d =>
    if c.1 = name then (c.1, c.2 ++ [d]) :: cs else c :: insertClass cs name d

/-- Modelled from the spec: `clear(collection)` "deletes the entire collection
(all Documents irrecoverably removed)".  The Weaviate client call
`schema.delete_class(index_name)` is external code not in the repository, so
its effect on the schema is taken from the spec: the class and all its
documents are removed; per the spec's clear contract the deletion itself has
no failure mode for an absent class. -/
def deleteClass : Schema → String → Schema
  | [], _ => []
  | c :: cs, name =>
    if c.1 = name then deleteClass cs name else c :: deleteClass cs name

/-- Modelled from the spec: `ensure_collection(name, ...)` "attempts to attach
to an existing collection of that name; if absent, creates an empty one.  Must
not destroy existing data when the collection already exists."  This is the
schema effect of rebuilding the index over the vector store in `_setup_index`,
which is llama-index code not in the repository. -/
def ensureClass : Schema → String → Schema
  | [], name => [(name, [])]
  | c :: cs, name => if c.1 = name then c :: cs else c :: ensureClass cs name

/-- The chatbot's state: the vector database schema, the configured class
name, and the provider/engine configuration objects set up in `__init__`. -/
structure BotState where
  schema : Schema
  indexName : String
  llm : LLMConfig
  queryEngine : QueryEngineConfig
deriving DecidableEq, Repr

/-- The `_setup_index` method: rebuilds the index over the vector store and
recreates the query engine with `similarity_top_k=3` and
`response_mode="tree_summarize"`.  The schema effect (collection created
empty if absent) is modelled from the spec, see `ensureClass`. -/
def setup_index (s : BotState) : BotState :=
  { s with
    schema := ensureClass s.schema s.indexName,
    queryEngine := { similarity_top_k := 3, response_mode := "tree_summarize" } }

/-- Insert loop of `add_documents`: `for doc in docs: self.index.insert(doc)`.
The external `index.insert` call's outcome for the i-th document of the call
is given by `fails` (`some e`: the insert raises `e`).  The whole loop sits in
one `try` block whose handler re-raises, so the first failure aborts the loop
and propagates; documents inserted before it stay committed. -/
def insertLoop (name : String) (fails : Nat → Option Err) :
    Schema → List Document → Nat → Schema × Option Err
  | w, [], _ => (w, none)
  | w, d :: ds, i =>
    match fails i with
    | some e => (w, some e)
    | none => insertLoop name fails (insertClass w name d) ds (i + 1)

/-- The `add_documents` method: builds one `Document(text=doc_text)` per input
text (the `titles` argument is accepted but never used), then inserts them one
by one; on any failure the exception is logged and re-raised.  The method has
no `return` statement, so on success it returns nothing (modelled as the
updated state with no error). -/
def add_documents (s : BotState) (documents : List String)
    (titles : Option (List String)) (fails : Nat → Option Err) :
    BotState × Option Err :=
  let docs := documents.map (fun t => Document.mk t)
  let r := insertLoop s.indexName fails s.schema docs 0
  ({ s with schema := r.1 }, r.2)

/-- The `add_text_file` method: `open(file_path).read()` is modelled by
`readResult`; on read failure the exception is re-raised and nothing is
inserted.  On success the entire file content becomes the text of a single
`Document`, inserted by one `index.insert` call whose possible failure is
`insertFail`. -/
def add_text_file (s : BotState) (readResult : Except Err String)
    (insertFail : Option Err) : BotState × Option Err :=
  match readResult with
  | .error e => (s, some e)
  | .ok content =>
    match insertFail with
    | some e => (s, some e)
    | none => ({ s with schema := insertClass s.schema s.indexName (Document.mk content) }, none)

/-- The `chat` method: delegates entirely to `self.query_engine.query(message)`
(outcome `queryResult`); a successful response is stringified and returned, and
any exception is caught and converted to the apologetic error string.  No field
of the state is assigned, so the state is returned unchanged. -/
def chat (s : BotState) (message : String) (queryResult : Except Err String) :
    String × BotState :=
  match queryResult with
  | .ok resp => (resp, s)
  | .error e => ("I\x27m sorry, I encountered an error: " ++ e, s)

/-- The `clear_knowledge_base` method: deletes the Weaviate class of the
knowledge base, then reinitializes the index and query engine via
`_setup_index`. -/
def clear_knowledge_base (s : BotState) : BotState :=
  setup_index { s with schema := deleteClass s.schema s.indexName }

/-- The `get_schema_info` method: tries `self.weaviate_client.schema.get()`
(outcome `fetch`); on success the schema object is returned, on any failure
the exception is caught and `None` is returned. -/
def get_schema_info (fetch : Except Err Schema) : Option Schema :=
  match fetch with
  | .ok sch => some sch
  | .error _ => none

/-- Modelled from the spec: the similarity search "returns up to `top_k`
nearest Documents ranked by vector similarity" — the search itself is vector
database code outside the repository.  Rankings are implementation-defined, so
retrieval is modelled as taking up to `k` of the stored documents; for the
claims below only emptiness and membership of the result matter. -/
def retrieve (s : BotState) (k : Nat) : List Document :=
  (docsOf s.schema s.indexName).take k

/-- Environment variables read by `__init__`: `OPENAI_API_KEY` and `BASE_URL`
(`os.getenv` yields `none` when the variable is absent). -/
structure Env where
  openai_api_key : Option String
  base_url : Option String
deriving DecidableEq, Repr

/-- Python truthiness of an `os.getenv` result: `None` and the empty string
are falsy. -/
def pyTruthy : Option String → Bool
  | none => false
  | some s => !s.isEmpty

/-- External calls made during `__init__`, in order: constructing the
completion provider (`OpenAI(**llm_kwargs)`), the embedding model, the
tokenizer, connecting to Weaviate, and setting up the index. -/
inductive ExtCall
  | llmInit
  | embedInit
  | tokenizerInit
  | weaviateConnect
  | indexSetup
deriving DecidableEq, Repr

/-- The `WeaviateChatbot.__init__` constructor: after storing its arguments it
checks `os.getenv("OPENAI_API_KEY")` and raises `ValueError` when the key is
falsy, before any provider or database object is constructed; otherwise it
configures the completion provider (temperature `0.1`, optional base-URL
override from the argument or the `BASE_URL` variable), the embedding model
and tokenizer, connects to Weaviate (raising `ConnectionError` when the
readiness check `connectReady` fails) and builds the index and query engine.
Alongside the result it returns the trace of external calls actually made. -/
def init (env : Env) (index_name model_name : String)
    (openai_base_url : Option String) (connectReady : Bool)
    (initialSchema : Schema) : Except Err BotState × List ExtCall :=
  let base := match openai_base_url with
    | some b => some b
    | none => env.base_url
  if !pyTruthy env.openai_api_key then
    (.error "OPENAI_API_KEY not found in environment variables", [])
  else
    let llm : LLMConfig := { model := model_name, temperature := 1 / 10, api_base := base }
    if !connectReady then
      (.error "Could not connect to Weaviate",
        [.llmInit, .embedInit, .tokenizerInit, .weaviateConnect])
    else
      (.ok (setup_index
        { schema := initialSchema, indexName := index_name, llm := llm,
          queryEngine := { similarity_top_k := 3, response_mode := "tree_summarize" } }),
        [.llmInit, .embedInit, .tokenizerInit, .weaviateConnect, .indexSetup])

/-- Modelled from the spec: the "tree/hierarchical summarize" response mode
fuses the retrieved texts; the synthesizer is llama-index code outside the
repository.  A summarization tree whose leaves are the texts being fused. -/
inductive SummTree
  | leaf (t : String)
  | node (l r : SummTree)
deriving DecidableEq, Repr

/-- The texts at the leaves of a summarization tree, left to right. -/
def SummTree.leaves : SummTree → List String
  | .leaf t => [t]
  | .node l r => l.leaves ++ r.leaves

/-- Modelled from the spec: hierarchical fusion of a nonempty list of
retrieved texts into a single summarization tree, so that every retrieved
text is a leaf of the tree that produces the final answer. -/
def buildSummTree : String → List String → SummTree
  | t, [] => .leaf t
  | t, t1 :: rest => .node (.leaf t) (buildSummTree t1 rest)

/-- Fold inserting a list of documents into class `name`, in order. -/
def insertAll (name : String) (w : Schema) (ds : List Document) : Schema :=
  ds.foldl (fun w d => insertClass w name d) w

/-- The default LLM configuration produced by `__init__` with its default
arguments (`model_name = "gpt-4o-mini"`, no base-URL override). -/
def llm0 : LLMConfig :=
  { model := "gpt-4o-mini", temperature := 1 / 10, api_base := none }

/-- The query-engine configuration built by `_setup_index`. -/
def qe0 : QueryEngineConfig :=
  { similarity_top_k := 3, response_mode := "tree_summarize" }

/-- A freshly initialized chatbot state over an empty collection. -/
def bot0 : BotState :=
  { schema := [("ChatbotKnowledge", [])], indexName := "ChatbotKnowledge",
    llm := llm0, queryEngine := qe0 }

/-- A chatbot state whose collection holds one document. -/
def bot1 : BotState :=
  { bot0 with schema := [("ChatbotKnowledge", [Document.mk "d"])] }

/-- An insert oracle under which the second `index.insert` call of a batch
raises while every other one succeeds. -/
def failAt1 : Nat → Option Err :=
  fun i => if i = 1 then some "boom" else none

theorem docsOf_insertClass (w : Schema) (name : String) (d : Document) :
    docsOf (insertClass w name d) name = docsOf w name ++ [d] := by
  induction w with
  | nil => simp [insertClass, docsOf]
  | cons c cs ih =>
    by_cases h : c.1 = name <;> simp [insertClass, docsOf, h, ih]

theorem docsOf_deleteClass (w : Schema) (name : String) :
    docsOf (deleteClass w name) name = [] := by
  induction w with
  | nil => rfl
  | cons c cs ih =>
    by_cases h : c.1 = name <;> simp [deleteClass, docsOf, h, ih]

theorem docsOf_ensureClass (w : Schema) (name : String) :
    docsOf (ensureClass w name) name = docsOf w name := by
  induction w with
  | nil => simp [ensureClass, docsOf]
  | cons c cs ih =>
    by_cases h : c.1 = name <;> simp [ensureClass, docsOf, h, ih]

theorem deleteClass_ensureClass (w : Schema) (name : String) :
    deleteClass (ensureClass w name) name = deleteClass w name := by
  induction w with
  | nil => simp [ensureClass, deleteClass]
  | cons c cs ih =>
    by_cases h : c.1 = name <;> simp [ensureClass, deleteClass, h, ih]

theorem deleteClass_deleteClass (w : Schema) (name : String) :
    deleteClass (deleteClass w name) name = deleteClass w name := by
  induction w with
  | nil => rfl
  | cons c cs ih =>
    by_cases h : c.1 = name <;> simp [deleteClass, h, ih]

theorem insertLoop_spec (name : String) (fails : Nat → Option Err) (e : Err) :
    ∀ (ds : List Document) (w : Schema) (i k : Nat),
      (∀ j, j < k → fails (i + j) = none) → fails (i + k) = some e →
      k < ds.length →
      insertLoop name fails w ds i = (insertAll name w (ds.take k), some e) := by
  intro ds
  induction ds with
  | nil => intro w i k _ _ hk; simp at hk
  | cons d ds ih =>
    intro w i k hok hfail hk
    cases k with
    | zero =>
      have h0 : fails i = some e := hfail
      simp [insertLoop, h0, insertAll]
    | succ k =>
      have h0 : fails i = none := hok 0 (Nat.succ_pos k)
      have hok' : ∀ j, j < k → fails (i + 1 + j) = none := by
        intro j hj
        have h1 : i + 1 + j = i + (j + 1) := by omega
        rw [h1]
        exact hok (j + 1) (by omega)
      have hfail' : fails (i + 1 + k) = some e := by
        have h1 : i + 1 + k = i + (k + 1) := by omega
        rw [h1]
        exact hfail
      have hk' : k < ds.length := by simpa using Nat.lt_of_succ_lt_succ hk
      have hrec := ih (insertClass w name d) (i + 1) k hok' hfail' hk'
      simp [insertLoop, h0, hrec, insertAll]

theorem docsOf_insertAll (name : String) :
    ∀ (ds : List Document) (w : Schema),
      docsOf (insertAll name w ds) name = docsOf w name ++ ds := by
  intro ds
  induction ds with
  | nil => intro w; simp [insertAll]
  | cons d ds ih =>
    intro w
    have : insertAll name w (d :: ds) = insertAll name (insertClass w name d) ds := rfl
    rw [this, ih (insertClass w name d), docsOf_insertClass]
    simp

theorem buildSummTree_leaves :
    ∀ (ts : List String) (t : String), (buildSummTree t ts).leaves = t :: ts := by
  intro ts
  induction ts with
  | nil => intro t; rfl
  | cons t1 rest ih => intro t; simp [buildSummTree, SummTree.leaves, ih]

/-- C1 counterexample: in a batch of three texts where inserting the second
raises, `add_documents` propagates the exception (returning no count and no
report of failed indices), and the third text is never inserted — the other
N−1 items do not all succeed, refuting the claimed partial-failure policy at
this concrete input. -/
theorem add_documents_batch_cex :
    (add_documents bot0 ["a", "b", "c"] none failAt1).2 = some "boom" ∧
    Document.mk "c" ∉
      docsOf (add_documents bot0 ["a", "b", "c"] none failAt1).1.schema
        "ChatbotKnowledge" ∧
    docsOf (add_documents bot0 ["a", "b", "c"] none failAt1).1.schema
        "ChatbotKnowledge" = [Document.mk "a"] := by
  decide

/-- C1 (amended): when the k-th insert of an `add_documents` batch fails and
the earlier ones succeed, the earlier insertions remain committed (no
rollback) — the collection afterwards holds exactly the old documents plus
the first k texts — but the exception propagates to the caller: the items
after k are not inserted, no failed indices are reported, and no count is
returned. -/
theorem add_documents_partial_failure (s : BotState) (documents : List String)
    (titles : Option (List String)) (fails : Nat → Option Err) (k : Nat)
    (e : Err) (hk : k < documents.length)
    (hok : ∀ j, j < k → fails j = none) (hfail : fails k = some e) :
    (add_documents s documents titles fails).2 = some e ∧
    docsOf (add_documents s documents titles fails).1.schema s.indexName
      = docsOf s.schema s.indexName ++ (documents.take k).map Document.mk := by
  have hlen : k < (documents.map Document.mk).length := by simpa using hk
  have hok0 : ∀ j, j < k → fails (0 + j) = none := by
    intro j hj
    simpa using hok j hj
  have hfail0 : fails (0 + k) = some e := by simpa using hfail
  have h := insertLoop_spec s.indexName fails e (documents.map Document.mk)
    s.schema 0 k hok0 hfail0 hlen
  constructor
  · simp [add_documents, h]
  · simp [add_documents, h, docsOf_insertAll, List.map_take]

/-- C1 witness: the amended theorem applied to the concrete failing batch. -/
theorem add_documents_partial_failure_witness :
    (add_documents bot0 ["a", "b", "c"] none failAt1).2 = some "boom" ∧
    docsOf (add_documents bot0 ["a", "b", "c"] none failAt1).1.schema
        bot0.indexName
      = docsOf bot0.schema bot0.indexName
          ++ ((["a", "b", "c"].take 1).map Document.mk) := by
  refine add_documents_partial_failure bot0 ["a", "b", "c"] none failAt1 1
    "boom" (by decide) ?_ (by decide)
  intro j hj
  have hj0 : j = 0 := by omega
  subst hj0
  decide

/-- C2: any failure of the delegated embed/search/complete pipeline during a
chat turn is caught, and `chat` returns the user-visible error-message string
describing it instead of raising — `chat` is a total function into strings,
so no modelled exception reaches the caller. -/
theorem chat_failure_returns_error_string (s : BotState) (message : String)
    (e : Err) :
    chat s message (Except.error e)
      = ("I\x27m sorry, I encountered an error: " ++ e, s) := rfl

/-- C3 counterexample: on a state with an empty collection, `chat` behaves
identically to pure delegation — for the same engine outcome it answers
exactly as on a one-document state, and when the delegated call fails it
returns the apologetic error string, so the repository code contains no
explicit empty-collection fallback branch and does not itself guarantee a
non-error answer on an empty collection. -/
theorem chat_empty_collection_cex :
    (chat bot0 "q" (Except.error "no docs")).1
      = "I\x27m sorry, I encountered an error: no docs" ∧
    (chat bot0 "q" (Except.ok "a")).1 = (chat bot1 "q" (Except.ok "a")).1 := by
  decide

/-- C3 (amended): a query on an empty collection returns an answer string
without raising, but not through an explicit empty-collection branch: `chat`
delegates entirely to the query engine, its answer for a given engine outcome
is independent of the collection contents (in particular of emptiness), and a
successful engine outcome — such as an unaided fallback answer — is returned
verbatim. -/
theorem chat_empty_collection_delegates (s s' : BotState) (msg : String)
    (r : Except Err String) (a : String) :
    (chat s msg r).1 = (chat s' msg r).1 ∧ chat s msg (Except.ok a) = (a, s) := by
  refine ⟨?_, rfl⟩
  cases r <;> rfl

/-- C4: `clear_knowledge_base` removes every stored document of the
collection and recreates it empty — a subsequent retrieval returns zero
matches for any top-k — and it is idempotent: a second clear produces the
same state and no error (the operation is total in the model). -/
theorem clear_knowledge_base_spec (s : BotState) (k : Nat) :
    docsOf (clear_knowledge_base s).schema s.indexName = [] ∧
    retrieve (clear_knowledge_base s) k = [] ∧
    clear_knowledge_base (clear_knowledge_base s) = clear_knowledge_base s := by
  refine ⟨?_, ?_, ?_⟩
  · simp [clear_knowledge_base, setup_index, docsOf_ensureClass,
      docsOf_deleteClass]
  · simp [retrieve, clear_knowledge_base, setup_index, docsOf_ensureClass,
      docsOf_deleteClass]
  · simp [clear_knowledge_base, setup_index, deleteClass_ensureClass,
      deleteClass_deleteClass]

/-- C5: `add_text_file` with an unreadable file propagates the read error and
inserts nothing (the state is returned unchanged); with a readable file it
inserts exactly one `Document` whose text is the entire file content — no
chunking or splitting — and reports no error. -/
theorem add_text_file_spec (s : BotState) (e : Err) (insertFail : Option Err)
    (c : String) :
    add_text_file s (Except.error e) insertFail = (s, some e) ∧
    (add_text_file s (Except.ok c) none).2 = none ∧
    docsOf (add_text_file s (Except.ok c) none).1.schema s.indexName
      = docsOf s.schema s.indexName ++ [Document.mk c] := by
  refine ⟨rfl, rfl, ?_⟩
  simp [add_text_file, docsOf_insertClass]

/-- C6: when `OPENAI_API_KEY` is absent from the environment, `init` fails
with the configuration error and its external-call trace is empty: no
completion-provider, embedding, tokenizer or vector-database call is made
before the failure. -/
theorem init_missing_key_fails_first (b : Option String)
    (index_name model_name : String) (obase : Option String) (ready : Bool)
    (w : Schema) :
    init ⟨none, b⟩ index_name model_name obase ready w
      = (Except.error "OPENAI_API_KEY not found in environment variables",
          []) := rfl

/-- C7: whenever construction succeeds, the query engine is configured with
`similarity_top_k = 3` and the tree-summarize response mode, the completion
provider is configured with sampling temperature 0.1, and the hierarchical
summarization of any nonempty list of retrieved texts has exactly those texts
as its leaves, so every top-K retrieved text feeds the final answer. -/
theorem init_configures_engine (env : Env) (index_name model_name : String)
    (obase : Option String) (ready : Bool) (w : Schema) (s : BotState)
    (calls : List ExtCall)
    (h : init env index_name model_name obase ready w = (Except.ok s, calls)) :
    s.queryEngine.similarity_top_k = 3 ∧
    s.llm.temperature = 1 / 10 ∧
    s.queryEngine.response_mode = "tree_summarize" ∧
    ∀ (t : String) (ts : List String), (buildSummTree t ts).leaves = t :: ts := by
  unfold init at h
  cases hpt : pyTruthy env.openai_api_key with
  | false => rw [hpt] at h; simp at h
  | true =>
    rw [hpt] at h
    cases ready with
    | false => simp at h
    | true =>
      simp [setup_index] at h
      obtain ⟨hs, -⟩ := h
      subst hs
      refine ⟨rfl, ?_, rfl, fun t ts => buildSummTree_leaves ts t⟩
      norm_num

/-- C7 witness: the theorem applied to a concrete successful construction. -/
theorem init_configures_engine_witness :
    bot0.queryEngine.similarity_top_k = 3 ∧
    bot0.llm.temperature = 1 / 10 ∧
    bot0.queryEngine.response_mode = "tree_summarize" ∧
    ∀ (t : String) (ts : List String), (buildSummTree t ts).leaves = t :: ts :=
  init_configures_engine ⟨some "k", none⟩ "ChatbotKnowledge" "gpt-4o-mini"
    none true [] bot0
    [ExtCall.llmInit, ExtCall.embedInit, ExtCall.tokenizerInit,
      ExtCall.weaviateConnect, ExtCall.indexSetup] rfl

/-- C8: the `titles` argument of `add_documents` is dead — for any two values
of it (including `None`) the resulting state and result are identical, since
the stored documents are built from the texts alone. -/
theorem add_documents_titles_unused (s : BotState) (documents : List String)
    (t1 t2 : Option (List String)) (fails : Nat → Option Err) :
    add_documents s documents t1 fails = add_documents s documents t2 fails :=
  rfl

/-- C9: a chat turn never mutates the chatbot state — whatever the outcome of
the delegated query, the state component returned by `chat` is exactly the
input state: the knowledge base, collection and configuration are unchanged. -/
theorem chat_preserves_state (s : BotState) (msg : String)
    (r : Except Err String) : (chat s msg r).2 = s := by
  cases r <;> rfl

/-- C10: `get_schema_info` never raises — it is a total function that returns
`none` on any failure of the underlying schema fetch and the schema object
itself on success. -/
theorem get_schema_info_total :
    (∀ e : Err, get_schema_info (Except.error e) = none) ∧
    (∀ sch : Schema, get_schema_info (Except.ok sch) = some sch) :=
  ⟨fun _ => rfl, fun _ => rfl⟩
